import Mathlib

/-!
Verification development for the chatbot-rag-pf repository: a shallow
embedding of its document-ingestion and retrieval-and-answer pipelines,
with theorems checking the natural-language specification against the code.

JavaScript strings that carry document text are modelled as `List Char`
(character sequences), so that excerpt and chunk lengths can be reasoned
about; identifier-like strings (file names, document ids, error messages)
are modelled as Lean `String`.  Similarity scores (JavaScript floating
point numbers) are modelled as rationals; an absent (`undefined`) score is
`Option.none`.  External network services (embedding provider, vector
store, LLM) are abstracted as function parameters, exactly as the spec
treats them (black boxes reachable by text-to-vector and text-to-text
calls).
-/

/-! ## JavaScript values and metadata sanitization
    (src/services/document.service.ts, `sanitizeMetadata`) -/

/-- A JavaScript runtime value, as discriminated by the `typeof` checks and
`Array.isArray` test in `sanitizeMetadata`.  `vFunc` stands for the
remaining primitives (`function`, `symbol`, `bigint`) whose `typeof` is
none of `string`/`number`/`boolean`/`object`. -/
inductive JSValue where
  | vNull
  | vUndefined
  | vStr (s : String)
  | vNum (q : ℚ)
  | vBool (b : Bool)
  | vArr (elems : List JSValue)
  | vObj (fields : List (String × JSValue))
  | vFunc
deriving Repr

/-- The test `typeof item === 'string'` applied to one array element. -/
def isStringItem : JSValue → Bool
  | .vStr _ => true
  | _ => false

/-- The test `value.every(item => typeof item === 'string')`. -/
def isStringArray (xs : List JSValue) : Bool :=
  xs.all isStringItem

/-- `sanitizeMetadata` from src/services/document.service.ts: a key is kept
when its value is a string, number or boolean, or an array whose elements
are all strings; `null`/`undefined`, other objects (including non-string
arrays), and remaining values fall through and are dropped.  A metadata
record is modelled as its `Object.entries` association list. -/
def sanitizeMetadata : List (String × JSValue) → List (String × JSValue)
  | [] => []
  | (k, v) :: rest =>
    match v with
    | .vNull => sanitizeMetadata rest
    | .vUndefined => sanitizeMetadata rest
    | .vStr s => (k, JSValue.vStr s) :: sanitizeMetadata rest
    | .vNum q => (k, JSValue.vNum q) :: sanitizeMetadata rest
    | .vBool b => (k, JSValue.vBool b) :: sanitizeMetadata rest
    | .vArr xs =>
      if isStringArray xs then (k, JSValue.vArr xs) :: sanitizeMetadata rest
      else sanitizeMetadata rest
    | .vObj _ => sanitizeMetadata rest
    | .vFunc => sanitizeMetadata rest

/-- The value types the spec allows in stored metadata, written from the
spec sentence "filtered to primitive types and arrays of strings only";
used to compare `sanitizeMetadata` against the specification. -/
def specAllowedMetadataValue : JSValue → Bool
  | .vStr _ => true
  | .vNum _ => true
  | .vBool _ => true
  | .vArr xs => xs.all isStringItem
  | _ => false

/-! ## Chunking
    (src/services/document.service.ts constructs a
    `RecursiveCharacterTextSplitter` with `chunkSize: 1000`,
    `chunkOverlap: 200`) -/

/-- One langchain `Document`: page content plus source metadata.  During
ingestion these are the text segments produced by extraction and then the
chunks produced by splitting. -/
structure Chunk where
  pageContent : List Char
  metadata : List (String × JSValue)
deriving Repr

/-- Modelled from the spec: the chunker (`RecursiveCharacterTextSplitter`
from `@langchain/textsplitters`, library code that is not part of this
repository) as the spec describes it — "each segment is split into chunks
of at most N characters (default 1000) with an overlap of O characters
(default 200) between consecutive chunks, preserving original order; a
segment shorter than N yields exactly one chunk".  A segment of at most
1000 characters is one chunk; otherwise the first 1000 characters form a
chunk and splitting continues 800 characters further in, so consecutive
chunks overlap by 200 characters. -/
def splitChunks (s : List Char) : List (List Char) :=
  if h : s.length ≤ 1000 then [s]
  else s.take 1000 :: splitChunks (s.drop 800)
termination_by s.length
decreasing_by
  simp only [List.length_drop]
  omega

/-- Modelled from the spec: `textSplitter.splitDocuments` (library code not
in this repository) splits every segment and keeps each chunk tagged with
its segment's source metadata. -/
def splitDocuments (docs : List Chunk) : List Chunk :=
  (docs.map (fun d => (splitChunks d.pageContent).map
    (fun c => Chunk.mk c d.metadata))).flatten

/-! ## Ingestion: vector records and processDocument
    (src/services/document.service.ts, `processDocument`) -/

/-- One record upserted to the vector store.  The source stores the five
fixed metadata fields (documentId, fileName, text, chunkIndex, uploadedAt)
and then spreads the sanitized source metadata; the spread keys are kept
in `extra`.  The embedding vector is the value of the external embedding
call on the chunk text. -/
structure VectorRecord where
  id : String
  values : List ℚ
  documentId : String
  fileName : String
  text : List Char
  chunkIndex : Nat
  uploadedAt : String
  extra : List (String × JSValue)
deriving Repr

/-- The vector-building step of `processDocument`: one record per chunk of
`splitDocs`, the record of the chunk with zero-based index `index` keyed
`documentId ++ "-chunk-" ++ index`, carrying the embedding of the chunk
text and the metadata fields. -/
def buildVectors (embed : List Char → List ℚ) (documentId fileName uploadedAt : String)
    (splitDocs : List Chunk) : List VectorRecord :=
  splitDocs.enum.map (fun p =>
    { id := documentId ++ ("-chunk-") ++ toString p.1
      values := embed p.2.pageContent
      documentId := documentId
      fileName := fileName
      text := p.2.pageContent
      chunkIndex := p.1
      uploadedAt := uploadedAt
      extra := sanitizeMetadata p.2.metadata })

/-- JavaScript `String.prototype.endsWith`: does `s` end with `suffix`?
Stated over the character lists of the two strings. -/
def strEndsWith (s suffix : String) : Bool :=
  List.isSuffixOf suffix.toList s.toList

/-- The text-extraction step of `processDocument`: the dispatch is on the
file NAME — `fileName.endsWith('.pdf')` loads via `PDFLoader` (the external
pdf parser, abstracted as the `pdfLoad` parameter), `fileName.endsWith('.txt')`
reads the content verbatim as a single segment with empty metadata, and any
other name throws `Unsupported file type`. -/
def extractDocs (pdfLoad : List Char → List Chunk) (fileName : String)
    (content : List Char) : Except String (List Chunk) :=
  if strEndsWith fileName (".pdf") then .ok (pdfLoad content)
  else if strEndsWith fileName (".txt") then .ok [Chunk.mk content []]
  else .error ("Unsupported file type. Please upload PDF or TXT files.")

/-- `DocumentService.processDocument` up to the upsert call: extract text
segments, split them into chunks, and build the vector records.  The
generated uuid, the embedding service and the pdf parser are parameters. -/
def processDocument (pdfLoad : List Char → List Chunk) (embed : List Char → List ℚ)
    (documentId fileName uploadedAt : String) (content : List Char) :
    Except String (List VectorRecord) :=
  (extractDocs pdfLoad fileName content).map
    (fun docs => buildVectors embed documentId fileName uploadedAt (splitDocuments docs))

/-! ## Upload route validation
    (src/routes/rag.routes.ts, POST /upload) -/

/-- The uploaded form file as the route sees it: `file.name`, `file.type`
(the declared MIME type), `file.size` in bytes, and its content. -/
structure UploadFile where
  name : String
  type : String
  size : Nat
  content : List Char
deriving Repr

/-- Outcome of the upload route's validation phase.  `rejected` is an
immediate JSON error response: no file is written and no processing or
external call happens.  `processed` is the fall-through where the route
writes the temporary file and invokes `documentService.processDocument`
with the file's name and content. -/
inductive UploadResult where
  | rejected (status : Nat) (error : String)
  | processed (fileName : String) (content : List Char)
deriving Repr, DecidableEq

/-- `const allowedTypes = ['application/pdf', 'text/plain']`. -/
def allowedTypes : List String := [("application/pdf"), ("text/plain")]

/-- The POST /upload handler's validation sequence: missing file, then
disallowed MIME type, then `file.size > 10 * 1024 * 1024`, each rejected
with HTTP 400 before any write or processing; otherwise processing runs. -/
def uploadRoute (file : Option UploadFile) : UploadResult :=
  match file with
  | none => .rejected 400 ("No file provided")
  | some f =>
    if (allowedTypes.contains f.type) = false then
      .rejected 400 ("Invalid file type. Only PDF and TXT files are allowed.")
    else if 10 * 1024 * 1024 < f.size then
      .rejected 400 ("File size exceeds 10MB limit")
    else
      .processed f.name f.content

/-! ## Query route
    (src/routes/rag.routes.ts, POST /query, and
    `DocumentService.queryDocuments`) -/

/-- One formatted similarity match, as produced by
`DocumentService.queryDocuments` (src/types/document.types.ts
`QueryResult`): the score is `number | undefined`. -/
structure QueryResult where
  id : String
  score : Option ℚ
  text : List Char
  fileName : String
  documentId : String
  chunkIndex : Nat
deriving Repr

/-- The three prompts the query route can send to the LLM: the context-free
conversational prompt of the no-match branch, the context-free
conversational prompt of the low-score branch, and the grounded prompt that
embeds the concatenated context block.  The fixed instruction text of each
template is elided; each constructor records the request data interpolated
into it. -/
inductive Prompt where
  | conversationalNoMatch (query : List Char)
  | conversationalLowScore (query : List Char)
  | grounded (context query : List Char)
deriving Repr, DecidableEq

/-- One entry of the response's `sources` array. -/
structure SourceEntry where
  fileName : String
  score : Option ℚ
  text : List Char
deriving Repr, DecidableEq

/-- The JSON body of a successful query response.  `conversational` is an
optional key: the two conversational branches set it to `true`, the
grounded branch omits it (`none`). -/
structure QueryResponse where
  answer : List Char
  sources : List SourceEntry
  conversational : Option Bool
deriving Repr, DecidableEq

/-- Outcome of the query route: an HTTP 400 error, or a 200 response
together with the single prompt that was issued to the LLM to produce it. -/
inductive QueryOutcome where
  | badRequest (status : Nat) (error : String)
  | ok (prompt : Prompt) (response : QueryResponse)
deriving Repr, DecidableEq

/-- Default `topK` from the request-body destructuring. -/
def defaultTopK : Nat := 5

/-- Default `similarityThreshold` from the request-body destructuring. -/
def defaultSimilarityThreshold : ℚ := 3 / 10

/-- The context block of the grounded prompt:
`relevantDocs.map((doc, idx) => ...).join('\n\n')`, each chunk text tagged
with its one-based ordinal label. -/
def buildContext (docs : List QueryResult) : List Char :=
  List.intercalate (String.toList ("\n\n"))
    (docs.enum.map (fun p =>
      String.toList (("[Document ") ++ toString (p.1 + 1) ++ ("]: ")) ++ p.2.text))

/-- The POST /query handler after request parsing, with the retrieval
result abstracted as `relevantDocs` (the value of
`documentService.queryDocuments(query, topK)`) and the LLM as `llm`.
Branches exactly as the source: missing query is HTTP 400; zero matches is
the conversational no-match branch; `relevantDocs[0]?.score || 0` below the
threshold is the conversational low-score branch; otherwise the grounded
branch, whose sources carry the file name, the raw score and the first 200
characters of the chunk text followed by an ellipsis. -/
def queryRoute (llm : Prompt → List Char) (query : List Char)
    (similarityThreshold : ℚ) (relevantDocs : List QueryResult) : QueryOutcome :=
  if query.isEmpty then .badRequest 400 ("Query is required")
  else if relevantDocs.length = 0 then
    .ok (Prompt.conversationalNoMatch query)
      { answer := llm (Prompt.conversationalNoMatch query)
        sources := []
        conversational := some true }
  else
    let bestScore : ℚ := ((relevantDocs.head?.bind QueryResult.score).getD 0)
    if bestScore < similarityThreshold then
      .ok (Prompt.conversationalLowScore query)
        { answer := llm (Prompt.conversationalLowScore query)
          sources := []
          conversational := some true }
    else
      .ok (Prompt.grounded (buildContext relevantDocs) query)
        { answer := llm (Prompt.grounded (buildContext relevantDocs) query)
          sources := relevantDocs.map (fun doc =>
            { fileName := doc.fileName
              score := doc.score
              text := doc.text.take 200 ++ String.toList ("...") })
          conversational := none }

/-! ## API-key authentication middleware
    (src/middleware/auth.middleware.ts, `apiKeyAuth`) -/

/-- JavaScript `String.prototype.split` with a one-character separator,
over the character list of the string: `[] :: groups` at each separator,
otherwise the character joins the current group.  Splitting the empty
string gives one empty group, as in JavaScript. -/
def splitOnChar (sep : Char) : List Char → List (List Char)
  | [] => [[]]
  | c :: rest =>
    if c = sep then [] :: splitOnChar sep rest
    else
      match splitOnChar sep rest with
      | [] => [[c]]
      | g :: gs => (c :: g) :: gs

/-- JavaScript `String.prototype.trim`: strip leading and trailing
whitespace characters. -/
def trimChars (s : List Char) : List Char :=
  ((s.dropWhile Char.isWhitespace).reverse.dropWhile Char.isWhitespace).reverse

/-- JavaScript `String.prototype.replace` with a string pattern: replace
the FIRST (leftmost) occurrence of `pat` in `s` by `repl`; `s` is returned
unchanged when `pat` does not occur. -/
def replaceFirstList (pat repl : List Char) : List Char → List Char
  | [] => if List.isPrefixOf pat [] then repl else []
  | c :: rest =>
    if List.isPrefixOf pat (c :: rest) then repl ++ (c :: rest).drop pat.length
    else c :: replaceFirstList pat repl rest

/-- `env.API_KEYS.split(',').map(key => key.trim()).filter(Boolean)`: the
configured allow-set of valid API keys (src/middleware/auth.middleware.ts).
Header and key strings are modelled as their character lists. -/
def parseApiKeys (s : List Char) : List (List Char) :=
  ((splitOnChar (',') s).map trimChars).filter (fun k => k.isEmpty = false)

/-- `c.req.header('X-API-Key') || c.req.header('Authorization')?.replace('Bearer ', '')`:
a present non-empty X-API-Key header wins; otherwise the Authorization
header, if present, with its first `Bearer ` stripped.  `none` is
JavaScript `undefined`; the empty string is falsy. -/
def extractApiKey (xApiKey authHeader : Option (List Char)) : Option (List Char) :=
  let fromAuth := authHeader.map (fun a => replaceFirstList (String.toList ("Bearer ")) [] a)
  match xApiKey with
  | none => fromAuth
  | some x => if x.isEmpty then fromAuth else some x

/-- Outcome of the middleware: a structured JSON error response with an
HTTP status, or `proceed` (`await next()`). -/
inductive AuthDecision where
  | respond (status : Nat) (error message : String)
  | proceed
deriving Repr, DecidableEq

/-- The `apiKeyAuth` middleware: a falsy (absent or empty) extracted key is
401, a key outside the allow-set is 403, otherwise the request proceeds. -/
def apiKeyAuth (validApiKeys : List (List Char)) (xApiKey authHeader : Option (List Char)) :
    AuthDecision :=
  let apiKey := extractApiKey xApiKey authHeader
  if (apiKey.getD []).isEmpty then
    .respond 401 ("Unauthorized")
      ("API key is required. Please provide it via X-API-Key header or Authorization Bearer token.")
  else if (validApiKeys.contains (apiKey.getD [])) = false then
    .respond 403 ("Forbidden") ("Invalid API key.")
  else
    .proceed

/-! ## Chunking lemmas -/

/-- Unfolding of `splitChunks` on a segment that fits in one chunk. -/
theorem splitChunks_of_le (s : List Char) (h : s.length ≤ 1000) :
    splitChunks s = [s] := by
  rw [splitChunks]
  simp [h]

/-- Unfolding of `splitChunks` on a segment longer than one chunk. -/
theorem splitChunks_of_gt (s : List Char) (h : 1000 < s.length) :
    splitChunks s = s.take 1000 :: splitChunks (s.drop 800) := by
  rw [splitChunks]
  simp [Nat.not_le.mpr h]

/-- The number of chunks of a segment longer than the overlap is
`⌈(L - 200) / 800⌉`, written with natural-number arithmetic. -/
theorem splitChunks_length (s : List Char) (h : 200 < s.length) :
    (splitChunks s).length = (s.length - 200 + 799) / 800 := by
  by_cases h1 : s.length ≤ 1000
  · rw [splitChunks_of_le s h1]
    simp only [List.length_singleton]
    omega
  · push_neg at h1
    have ih := splitChunks_length (s.drop 800)
      (by simp only [List.length_drop]; omega)
    rw [splitChunks_of_gt s h1]
    simp only [List.length_cons, ih, List.length_drop]
    omega
termination_by s.length
decreasing_by
  simp only [List.length_drop]
  omega

/-- Closed form of `splitChunks`: the chunk of index `i` is the window of
at most 1000 characters starting at offset `800 * i`. -/
theorem splitChunks_closedForm (s : List Char) :
    splitChunks s = (List.range (splitChunks s).length).map
      (fun i => (s.drop (800 * i)).take 1000) := by
  by_cases h1 : s.length ≤ 1000
  · rw [splitChunks_of_le s h1]
    simp [List.range_succ, List.take_of_length_le h1]
  · push_neg at h1
    have ih := splitChunks_closedForm (s.drop 800)
    rw [splitChunks_of_gt s h1]
    have hlen : (s.take 1000 :: splitChunks (s.drop 800)).length
        = (splitChunks (s.drop 800)).length + 1 := by
      simp
    rw [hlen, List.range_succ_eq_map, List.map_cons, List.map_map]
    refine congrArg₂ List.cons (by simp) ?_
    conv_lhs => rw [ih]
    refine List.map_congr_left ?_
    intro i _
    simp only [Function.comp_apply, List.drop_drop]
    have harith : 800 * Nat.succ i = 800 + 800 * i := by omega
    rw [harith]
termination_by s.length
decreasing_by
  simp only [List.length_drop]
  omega

/-- Every chunk produced by `splitChunks` has at most 1000 characters. -/
theorem splitChunks_chunk_le (s : List Char) :
    ∀ c ∈ splitChunks s, c.length ≤ 1000 := by
  intro c hc
  rw [splitChunks_closedForm s] at hc
  simp only [List.mem_map, List.mem_range] at hc
  obtain ⟨i, _, rfl⟩ := hc
  simp only [List.length_take]
  omega

/-! ## Sample values used by witnesses -/

/-- A concrete stand-in for the LLM client in witnesses. -/
def sampleLLM : Prompt → List Char := fun _ => String.toList ("ok")

/-- A concrete stand-in for the embedding client in witnesses. -/
def sampleEmbed : List Char → List ℚ := fun _ => [1, 0]

/-- A concrete stand-in for the pdf parser in witnesses. -/
def samplePdfLoad : List Char → List Chunk := fun _ => []

/-- A concrete similarity match used by witnesses, with the given score. -/
def sampleDoc (s : Option ℚ) : QueryResult :=
  { id := ("id1")
    score := s
    text := String.toList ("hello")
    fileName := ("f.txt")
    documentId := ("doc1")
    chunkIndex := 0 }

/-! ## Claim theorems -/

/-- C2: for every query request where the similarity search returns zero
matches, the pipeline skips retrieval-augmented generation entirely: the
issued prompt is the context-free conversational one, and the response is
its answer with an empty source list and `conversational: true`, regardless
of question content. -/
theorem query_noMatch_conversational (llm : Prompt → List Char)
    (query : List Char) (T : ℚ) (hq : query ≠ []) :
    queryRoute llm query T []
      = .ok (Prompt.conversationalNoMatch query)
          { answer := llm (Prompt.conversationalNoMatch query)
            sources := []
            conversational := some true } := by
  have hq' : query.isEmpty = false := List.isEmpty_eq_false.mpr hq
  simp [queryRoute, hq']

/-- Witness for `query_noMatch_conversational` at a concrete query. -/
theorem query_noMatch_conversational_witness :
    queryRoute sampleLLM (String.toList ("hi")) 1 []
      = .ok (Prompt.conversationalNoMatch (String.toList ("hi")))
          { answer := sampleLLM (Prompt.conversationalNoMatch (String.toList ("hi")))
            sources := []
            conversational := some true } :=
  query_noMatch_conversational sampleLLM (String.toList ("hi")) 1 (by decide)

/-- C1: for every query request where matches exist but the first (best)
match's score is below the similarity threshold, the route issues the
context-free conversational prompt (not the grounded one) and responds with
its answer, an empty source list and `conversational: true`. -/
theorem query_lowScore_conversational (llm : Prompt → List Char)
    (query : List Char) (T : ℚ) (d : QueryResult) (rest : List QueryResult)
    (s : ℚ) (hq : query ≠ []) (hd : d.score = some s) (hs : s < T) :
    queryRoute llm query T (d :: rest)
      = .ok (Prompt.conversationalLowScore query)
          { answer := llm (Prompt.conversationalLowScore query)
            sources := []
            conversational := some true } := by
  have hq' : query.isEmpty = false := List.isEmpty_eq_false.mpr hq
  simp [queryRoute, hq', hd, hs]

/-- Witness for `query_lowScore_conversational`: one match with score 0,
threshold 1. -/
theorem query_lowScore_conversational_witness :
    queryRoute sampleLLM (String.toList ("hi")) 1 [sampleDoc (some 0)]
      = .ok (Prompt.conversationalLowScore (String.toList ("hi")))
          { answer := sampleLLM (Prompt.conversationalLowScore (String.toList ("hi")))
            sources := []
            conversational := some true } :=
  query_lowScore_conversational sampleLLM (String.toList ("hi")) 1
    (sampleDoc (some 0)) [] 0 (by decide) rfl (by decide)

/-- C3: for every query request where matches exist and the best match's
score is at least the threshold, the grounded branch runs: the response
carries exactly one source entry per retrieved match, in the order returned
by the store, each with the match's file name, raw score, and the first 200
characters of the chunk text followed by an ellipsis; every excerpt has at
most 203 characters, and the `conversational` key is absent. -/
theorem query_grounded_sources (llm : Prompt → List Char)
    (query : List Char) (T : ℚ) (d : QueryResult) (rest : List QueryResult)
    (s : ℚ) (hq : query ≠ []) (hd : d.score = some s) (hs : T ≤ s) :
    (queryRoute llm query T (d :: rest)
      = .ok (Prompt.grounded (buildContext (d :: rest)) query)
          { answer := llm (Prompt.grounded (buildContext (d :: rest)) query)
            sources := (d :: rest).map (fun doc =>
              { fileName := doc.fileName
                score := doc.score
                text := doc.text.take 200 ++ String.toList ("...") })
            conversational := none })
    ∧ (∀ e ∈ (d :: rest).map (fun doc =>
          SourceEntry.mk doc.fileName doc.score
            (doc.text.take 200 ++ String.toList ("..."))),
        e.text.length ≤ 203) := by
  have hq' : query.isEmpty = false := List.isEmpty_eq_false.mpr hq
  have hs' : ¬ (s < T) := not_lt.mpr hs
  constructor
  · simp [queryRoute, hq', hd, hs']
  · intro e he
    simp only [List.mem_map] at he
    obtain ⟨doc, _, rfl⟩ := he
    have h3 : (String.toList ("...")).length = 3 := rfl
    simp only [List.length_append, List.length_take, h3]
    omega

/-- Witness for `query_grounded_sources`: one match with score 1,
threshold 1. -/
theorem query_grounded_sources_witness :
    queryRoute sampleLLM (String.toList ("hi")) 1 [sampleDoc (some 1)]
      = .ok (Prompt.grounded (buildContext [sampleDoc (some 1)]) (String.toList ("hi")))
          { answer := sampleLLM
              (Prompt.grounded (buildContext [sampleDoc (some 1)]) (String.toList ("hi")))
            sources := [sampleDoc (some 1)].map (fun doc =>
              { fileName := doc.fileName
                score := doc.score
                text := doc.text.take 200 ++ String.toList ("...") })
            conversational := none } :=
  (query_grounded_sources sampleLLM (String.toList ("hi")) 1
    (sampleDoc (some 1)) [] 1 (by decide) rfl (by decide)).1

/-- C10: for every query request where matches exist but the first match's
score is absent (`undefined`) or 0, the pipeline treats the best score as 0
via `relevantDocs[0]?.score || 0`, so with any strictly positive threshold
the conversational branch is taken: empty sources and
`conversational: true`. -/
theorem query_missing_score_conversational (llm : Prompt → List Char)
    (query : List Char) (T : ℚ) (d : QueryResult) (rest : List QueryResult)
    (hq : query ≠ []) (hd : d.score = none ∨ d.score = some 0) (hT : 0 < T) :
    queryRoute llm query T (d :: rest)
      = .ok (Prompt.conversationalLowScore query)
          { answer := llm (Prompt.conversationalLowScore query)
            sources := []
            conversational := some true } := by
  have hq' : query.isEmpty = false := List.isEmpty_eq_false.mpr hq
  rcases hd with hd | hd <;> simp [queryRoute, hq', hd, hT]

/-- Witness for `query_missing_score_conversational`: one match with an
absent score, threshold 1. -/
theorem query_missing_score_conversational_witness :
    queryRoute sampleLLM (String.toList ("hi")) 1 [sampleDoc none]
      = .ok (Prompt.conversationalLowScore (String.toList ("hi")))
          { answer := sampleLLM (Prompt.conversationalLowScore (String.toList ("hi")))
            sources := []
            conversational := some true } :=
  query_missing_score_conversational sampleLLM (String.toList ("hi")) 1
    (sampleDoc none) [] (by decide) (Or.inl rfl) (by decide)

/-- The chunk count asserted by the claim, `⌈(L - O) / (N - O)⌉` with
N = 1000 and O = 200, read over the rationals. -/
def specChunkCount (L : Nat) : ℤ := ⌈((L : ℚ) - 200) / 800⌉

/-- C4 (amended): chunking with N = 1000 and O = 200 is the deterministic
sliding window — a segment of at most N characters is exactly one chunk;
for L > O the number of chunks is ⌈(L-O)/(N-O)⌉ (for 0 < L ≤ O the claimed
formula gives 0 although one chunk is produced, see the counterexample);
every chunk has at most N characters; the chunk of index i is the window of
the original text starting at offset (N-O)·i, so chunks are in original
order; and consecutive chunks share exactly the O = 200 characters at their
boundary whenever a successor chunk exists. -/
theorem chunking_window_spec (s : List Char) :
    (s.length ≤ 1000 → splitChunks s = [s])
    ∧ (200 < s.length → (splitChunks s).length = (s.length - 200 + 799) / 800)
    ∧ (∀ c ∈ splitChunks s, c.length ≤ 1000)
    ∧ (splitChunks s = (List.range (splitChunks s).length).map
        (fun i => (s.drop (800 * i)).take 1000))
    ∧ (∀ i, i + 1 < (splitChunks s).length →
        ((s.drop (800 * i)).take 1000).drop 800
            = ((s.drop (800 * (i + 1))).take 1000).take 200
        ∧ (((s.drop (800 * i)).take 1000).drop 800).length = 200) := by
  refine ⟨splitChunks_of_le s, splitChunks_length s, splitChunks_chunk_le s,
    splitChunks_closedForm s, ?_⟩
  intro i hi
  constructor
  · rw [List.drop_take, List.drop_drop, List.take_take]
    have harith : 800 * (i + 1) = 800 * i + 800 := by ring
    rw [harith]
    norm_num
  · have hbound : 800 * i + 1000 ≤ s.length := by
      by_cases hle : s.length ≤ 1000
      · rw [splitChunks_of_le s hle] at hi
        simp at hi
      · push_neg at hle
        have hlen := splitChunks_length s (by omega)
        rw [hlen] at hi
        omega
    simp only [List.length_drop, List.length_take]
    omega

/-- Counterexample to C4 as stated: a segment of 100 characters produces
one chunk, while the claimed count formula ⌈(L-200)/800⌉ gives 0. -/
theorem chunking_count_counterexample :
    ((splitChunks (List.replicate 100 ('a'))).length : ℤ) ≠ specChunkCount 100 := by
  have h1 : splitChunks (List.replicate 100 ('a')) = [List.replicate 100 ('a')] :=
    splitChunks_of_le _ (by simp only [List.length_replicate]; decide)
  have h2 : specChunkCount 100 = 0 := by
    unfold specChunkCount
    have hq : ((100 : ℕ) - 200 : ℚ) / 800 = -1 / 8 := by norm_num
    rw [hq]
    exact Int.ceil_eq_iff.mpr (by norm_num)
  rw [h1, h2]
  simp

/-- Witness for `chunking_window_spec`: a 500-character segment is one
chunk; a 2000-character segment has ⌈(2000-200)/800⌉ = 3 chunks and its
first two chunks share a 200-character boundary region. -/
theorem chunking_window_spec_witness :
    splitChunks (List.replicate 500 ('a')) = [List.replicate 500 ('a')]
    ∧ (splitChunks (List.replicate 2000 ('a'))).length = (2000 - 200 + 799) / 800
    ∧ (((List.replicate 2000 ('a')).drop (800 * 0)).take 1000).drop 800
        = (((List.replicate 2000 ('a')).drop (800 * (0 + 1))).take 1000).take 200 := by
  refine ⟨(chunking_window_spec (List.replicate 500 ('a'))).1
      (by simp only [List.length_replicate]; decide), ?_, ?_⟩
  · have h := (chunking_window_spec (List.replicate 2000 ('a'))).2.1
      (by simp only [List.length_replicate]; decide)
    simp only [List.length_replicate] at h
    exact h
  · have hlen := (chunking_window_spec (List.replicate 2000 ('a'))).2.1
      (by simp only [List.length_replicate]; decide)
    have hlt : 0 + 1 < (splitChunks (List.replicate 2000 ('a'))).length := by
      rw [hlen]
      simp only [List.length_replicate]
      decide
    exact ((chunking_window_spec (List.replicate 2000 ('a'))).2.2.2.2 0 hlt).1

/-- C7: `sanitizeMetadata` is a total filter on the metadata record — it is
exactly the restriction of the record to the keys whose values are strings,
numbers, booleans, or arrays of strings; every such binding is kept with
its value unchanged and in order, and every other binding (null, undefined,
non-string arrays, other objects, remaining values) is dropped entirely. -/
theorem sanitizeMetadata_spec (m : List (String × JSValue)) :
    sanitizeMetadata m = m.filter (fun kv => specAllowedMetadataValue kv.2) := by
  induction m with
  | nil => rfl
  | cons kv rest ih =>
    obtain ⟨k, v⟩ := kv
    cases v with
    | vArr xs =>
      by_cases hx : isStringArray xs
      · have hx' : xs.all isStringItem = true := hx
        simp [sanitizeMetadata, specAllowedMetadataValue, List.filter_cons, hx, hx', ih]
      · have hx' : xs.all isStringItem = false := by
          simpa [isStringArray] using hx
        simp [sanitizeMetadata, specAllowedMetadataValue, List.filter_cons, hx, hx', ih]
    | _ =>
      simp [sanitizeMetadata, specAllowedMetadataValue, List.filter_cons, ih]

/-- C6: upload validation — a missing file, a MIME type other than
`application/pdf`/`text/plain`, or a size strictly above 10 MiB is rejected
with HTTP 400 (the `rejected` outcome, reached before any file write,
processing step or external call); a present file of an allowed type whose
size is at most 10 MiB passes the size check and reaches processing. -/
theorem upload_validation_spec (file : Option UploadFile) :
    (file = none → uploadRoute file = .rejected 400 ("No file provided"))
    ∧ (∀ f, file = some f → allowedTypes.contains f.type = false →
        uploadRoute file
          = .rejected 400 ("Invalid file type. Only PDF and TXT files are allowed."))
    ∧ (∀ f, file = some f → allowedTypes.contains f.type = true →
        10 * 1024 * 1024 < f.size →
        uploadRoute file = .rejected 400 ("File size exceeds 10MB limit"))
    ∧ (∀ f, file = some f → allowedTypes.contains f.type = true →
        f.size ≤ 10 * 1024 * 1024 →
        uploadRoute file = .processed f.name f.content) := by
  refine ⟨?_, ?_, ?_, ?_⟩
  · intro hf
    subst hf
    rfl
  · intro f hf ht
    subst hf
    have ht' : f.type ∉ allowedTypes := by simpa using ht
    simp [uploadRoute, ht']
  · intro f hf ht hsize
    subst hf
    have ht' : f.type ∈ allowedTypes := by simpa using ht
    simp [uploadRoute, ht', hsize]
  · intro f hf ht hsize
    subst hf
    have ht' : f.type ∈ allowedTypes := by simpa using ht
    have hsize' : ¬ (10 * 1024 * 1024 < f.size) := not_lt.mpr hsize
    simp [uploadRoute, ht', hsize']

/-- Witness for `upload_validation_spec`: a missing file, an accepted
small text file, an oversized file, and a disallowed MIME type. -/
theorem upload_validation_spec_witness :
    uploadRoute none = .rejected 400 ("No file provided")
    ∧ uploadRoute (some (UploadFile.mk ("a.txt") ("text/plain") 500 []))
        = .processed ("a.txt") []
    ∧ uploadRoute (some (UploadFile.mk ("a.txt") ("text/plain") 10485761 []))
        = .rejected 400 ("File size exceeds 10MB limit")
    ∧ uploadRoute (some (UploadFile.mk ("a.zip") ("application/zip") 5 []))
        = .rejected 400 ("Invalid file type. Only PDF and TXT files are allowed.") := by
  refine ⟨(upload_validation_spec none).1 rfl, ?_, ?_, ?_⟩
  · exact (upload_validation_spec _).2.2.2 _ rfl (by decide) (by decide)
  · exact (upload_validation_spec _).2.2.1 _ rfl (by decide) (by decide)
  · exact (upload_validation_spec _).2.1 _ rfl (by decide)

/-- C5 (amended): text extraction is determined by the file NAME's
extension, not by the declared MIME type — a name ending in `.pdf` is
parsed by the pdf loader, a name ending in `.txt` (and not in `.pdf`) is
used verbatim as a single segment with empty metadata, and any other name
fails with the `Unsupported file type` error even when the MIME type passed
upload validation. -/
theorem extraction_by_extension (pdfLoad : List Char → List Chunk)
    (fileName : String) (content : List Char) :
    (strEndsWith fileName (".pdf") = true →
      extractDocs pdfLoad fileName content = .ok (pdfLoad content))
    ∧ (strEndsWith fileName (".pdf") = false →
        strEndsWith fileName (".txt") = true →
        extractDocs pdfLoad fileName content = .ok [Chunk.mk content []])
    ∧ (strEndsWith fileName (".pdf") = false →
        strEndsWith fileName (".txt") = false →
        extractDocs pdfLoad fileName content
          = .error ("Unsupported file type. Please upload PDF or TXT files.")) := by
  refine ⟨?_, ?_, ?_⟩
  · intro hp
    simp [extractDocs, hp]
  · intro hp ht
    simp [extractDocs, hp, ht]
  · intro hp ht
    simp [extractDocs, hp, ht]

/-- Counterexample to C5 as stated: the file `notes.md` with declared MIME
type `text/plain` is accepted by upload validation, yet extraction does not
use its content verbatim as a single segment — it fails with the
`Unsupported file type` error, because the dispatch is on the file-name
extension rather than the MIME type. -/
theorem extraction_mime_counterexample :
    uploadRoute (some (UploadFile.mk ("notes.md") ("text/plain") 5 (String.toList ("hello"))))
        = .processed ("notes.md") (String.toList ("hello"))
    ∧ extractDocs samplePdfLoad ("notes.md") (String.toList ("hello"))
        = .error ("Unsupported file type. Please upload PDF or TXT files.")
    ∧ extractDocs samplePdfLoad ("notes.md") (String.toList ("hello"))
        ≠ .ok [Chunk.mk (String.toList ("hello")) []] := by
  refine ⟨by decide, ?_, ?_⟩
  · have hp : strEndsWith ("notes.md") (".pdf") = false := by decide
    have ht : strEndsWith ("notes.md") (".txt") = false := by decide
    simp [extractDocs, hp, ht]
  · have hp : strEndsWith ("notes.md") (".pdf") = false := by decide
    have ht : strEndsWith ("notes.md") (".txt") = false := by decide
    simp [extractDocs, hp, ht]

/-- Witness for `extraction_by_extension` at the three kinds of names. -/
theorem extraction_by_extension_witness :
    extractDocs samplePdfLoad ("a.pdf") (String.toList ("x"))
        = .ok (samplePdfLoad (String.toList ("x")))
    ∧ extractDocs samplePdfLoad ("a.txt") (String.toList ("x"))
        = .ok [Chunk.mk (String.toList ("x")) []]
    ∧ extractDocs samplePdfLoad ("a.md") (String.toList ("x"))
        = .error ("Unsupported file type. Please upload PDF or TXT files.") := by
  refine ⟨?_, ?_, ?_⟩
  · exact (extraction_by_extension samplePdfLoad ("a.pdf") _).1 (by decide)
  · exact (extraction_by_extension samplePdfLoad ("a.txt") _).2.1 (by decide) (by decide)
  · exact (extraction_by_extension samplePdfLoad ("a.md") _).2.2 (by decide) (by decide)

/-- C8: the stored vector records are in one-to-one correspondence with
the chunks — the record of the chunk with zero-based index i is keyed
`{documentId}-chunk-{i}` and carries that chunk's text; and a plain-text
document of exactly 500 characters yields exactly one chunk and one stored
vector keyed `{documentId}-chunk-0`. -/
theorem ingestion_vector_keys (embed : List Char → List ℚ)
    (docId fn up : String) (splitDocs : List Chunk)
    (pdfLoad : List Char → List Chunk) (content : List Char) :
    ((buildVectors embed docId fn up splitDocs).map VectorRecord.id
        = (List.range splitDocs.length).map
            (fun i => docId ++ ("-chunk-") ++ toString i))
    ∧ ((buildVectors embed docId fn up splitDocs).map VectorRecord.text
        = splitDocs.map Chunk.pageContent)
    ∧ (content.length = 500 →
        (processDocument pdfLoad embed docId ("doc.txt") up content).toOption.map
            (fun vs => vs.map VectorRecord.id)
          = some [docId ++ ("-chunk-0")]) := by
  refine ⟨?_, ?_, ?_⟩
  · simp only [buildVectors, List.map_map]
    rw [← List.enum_map_fst splitDocs, List.map_map]
    rfl
  · simp only [buildVectors, List.map_map]
    conv_rhs => rw [← List.enum_map_snd splitDocs, List.map_map]
    rfl
  · intro h500
    have hp : strEndsWith ("doc.txt") (".pdf") = false := by decide
    have ht : strEndsWith ("doc.txt") (".txt") = true := by decide
    have hext : extractDocs pdfLoad ("doc.txt") content = .ok [Chunk.mk content []] := by
      simp [extractDocs, hp, ht]
    have hsplit : splitChunks content = [content] :=
      splitChunks_of_le content (by omega)
    have hsd : splitDocuments [Chunk.mk content []] = [Chunk.mk content []] := by
      simp [splitDocuments, hsplit]
    have henum : ([Chunk.mk content []]).enum = [(0, Chunk.mk content [])] := rfl
    have hid : (("-chunk-") ++ toString (0 : Nat)) = ("-chunk-0") := rfl
    simp [processDocument, hext, hsd, buildVectors, henum, sanitizeMetadata,
      Except.map, Except.toOption, String.append_assoc, hid]

/-- Witness for `ingestion_vector_keys`: a concrete 500-character text
document yields the single key `d-chunk-0`. -/
theorem ingestion_vector_keys_witness :
    (processDocument samplePdfLoad sampleEmbed ("d") ("doc.txt") ("t")
        (List.replicate 500 ('x'))).toOption.map (fun vs => vs.map VectorRecord.id)
      = some [("d") ++ ("-chunk-0")] :=
  (ingestion_vector_keys sampleEmbed ("d") ("doc.txt") ("t") [] samplePdfLoad
    (List.replicate 500 ('x'))).2.2 (by simp only [List.length_replicate])

/-- C9: the `apiKeyAuth` middleware — a request carrying neither an
X-API-Key header nor an Authorization header is answered 401 with a
structured error; an extracted non-empty credential outside the configured
allow-set is answered 403; an extracted credential in the allow-set lets
the request proceed to the route handler. -/
theorem apiKeyAuth_spec (keys : List (List Char)) (x a : Option (List Char)) :
    (x = none → a = none →
      apiKeyAuth keys x a
        = .respond 401 ("Unauthorized")
            ("API key is required. Please provide it via X-API-Key header or Authorization Bearer token."))
    ∧ (∀ k, extractApiKey x a = some k → k ≠ [] → keys.contains k = false →
        apiKeyAuth keys x a = .respond 403 ("Forbidden") ("Invalid API key."))
    ∧ (∀ k, extractApiKey x a = some k → k ≠ [] → keys.contains k = true →
        apiKeyAuth keys x a = .proceed) := by
  refine ⟨?_, ?_, ?_⟩
  · intro hx ha
    subst hx
    subst ha
    rfl
  · intro k hk hne hc
    have hc' : k ∉ keys := by simpa using hc
    simp [apiKeyAuth, hk, hne, hc']
  · intro k hk hne hc
    have hc' : k ∈ keys := by simpa using hc
    simp [apiKeyAuth, hk, hne, hc']

/-- Witness for `apiKeyAuth_spec` with the allow-set parsed from
`k1,k2`: no credential is 401, a wrong X-API-Key is 403, and a correct
Authorization bearer token proceeds. -/
theorem apiKeyAuth_spec_witness :
    apiKeyAuth (parseApiKeys (String.toList ("k1,k2"))) none none
        = .respond 401 ("Unauthorized")
            ("API key is required. Please provide it via X-API-Key header or Authorization Bearer token.")
    ∧ apiKeyAuth (parseApiKeys (String.toList ("k1,k2")))
          (some (String.toList ("bad"))) none
        = .respond 403 ("Forbidden") ("Invalid API key.")
    ∧ apiKeyAuth (parseApiKeys (String.toList ("k1,k2"))) none
          (some (String.toList ("Bearer k1")))
        = .proceed := by
  refine ⟨(apiKeyAuth_spec _ none none).1 rfl rfl, ?_, ?_⟩
  · exact (apiKeyAuth_spec _ _ none).2.1 (String.toList ("bad"))
      (by decide) (by decide) (by decide)
  · exact (apiKeyAuth_spec _ none _).2.2 (String.toList ("k1"))
      (by decide) (by decide) (by decide)
